import Mathlib

/-!
Smart City Dashboard — verification of the data pipeline.

Shallow embedding of the data acquisition and derivation pipeline of
`script.js` (and, for the equivalence claim, of the variant embedded in
`README.md`): geocoding, the current-weather fetcher, the air-quality
fetcher with its index deriver and band classifier, the hourly fetchers,
and the orchestrator `fetchCityData`.

Numbers from the JSON APIs are modelled as rationals (`ℚ`); JavaScript
`Math.round` is `⌊x + 1/2⌋` (round half toward +∞), `null`/`undefined`
fields are `Option`, and a thrown error is the `Except.error` branch.
-/

/-- JavaScript `Math.round`: rounds half toward positive infinity. -/
def jsRound (x : ℚ) : ℤ := Int.floor (x + 1/2)

/-- Function `calculateAQI` from `script.js` (identical in `README.md`): the
five-segment piecewise-linear PM2.5 → index mapping, with `Math.round`
on each segment. -/
def calculateAQI (pm25 : ℚ) : ℤ :=
  if pm25 ≤ 12 then jsRound (pm25 / 12 * 50)
  else if pm25 ≤ 35.4 then jsRound (50 + (pm25 - 12) / 23.4 * 50)
  else if pm25 ≤ 55.4 then jsRound (100 + (pm25 - 35.4) / 20 * 50)
  else if pm25 ≤ 150.4 then jsRound (150 + (pm25 - 55.4) / 95 * 50)
  else jsRound (200 + (pm25 - 150.4) / 49.6 * 100)

/-- The five-segment reference definition exactly as the spec words it:
explicit two-sided range conditions on each middle segment. -/
def deriveIndexSpec (pm25 : ℚ) : ℤ :=
  if pm25 ≤ 12 then jsRound (pm25 / 12 * 50)
  else if 12 < pm25 ∧ pm25 ≤ 35.4 then jsRound (50 + (pm25 - 12) / 23.4 * 50)
  else if 35.4 < pm25 ∧ pm25 ≤ 55.4 then jsRound (100 + (pm25 - 35.4) / 20 * 50)
  else if 55.4 < pm25 ∧ pm25 ≤ 150.4 then jsRound (150 + (pm25 - 55.4) / 95 * 50)
  else jsRound (200 + (pm25 - 150.4) / 49.6 * 100)

/-- The five segment formulas of `calculateAQI`, taken individually
(each one total, for evaluating a segment at or beyond its boundary). -/
def aqiSegment1 (pm25 : ℚ) : ℤ := jsRound (pm25 / 12 * 50)

def aqiSegment2 (pm25 : ℚ) : ℤ := jsRound (50 + (pm25 - 12) / 23.4 * 50)

def aqiSegment3 (pm25 : ℚ) : ℤ := jsRound (100 + (pm25 - 35.4) / 20 * 50)

def aqiSegment4 (pm25 : ℚ) : ℤ := jsRound (150 + (pm25 - 55.4) / 95 * 50)

def aqiSegment5 (pm25 : ℚ) : ℤ := jsRound (200 + (pm25 - 150.4) / 49.6 * 100)

/-- Function `getAQIStatus` from `script.js` (identical in `README.md`): index →
band label, ascending if-else chain. -/
def getAQIStatus (aqi : ℤ) : String :=
  if aqi ≤ 50 then "Good"
  else if aqi ≤ 100 then "Moderate"
  else if aqi ≤ 150 then "Unhealthy for Sensitive Groups"
  else if aqi ≤ 200 then "Unhealthy"
  else "Very Unhealthy"

/-- The spec's ordered band table, first match wins, inclusive lower
boundaries, written as the spec words it. -/
def classifySpec (index : ℤ) : String :=
  if index ≤ 50 then "Good"
  else if index ≤ 100 then "Moderate"
  else if index ≤ 150 then "Unhealthy for Sensitive Groups"
  else if index ≤ 200 then "Unhealthy"
  else "Very Unhealthy"

/-- C1: `calculateAQI` agrees with the spec's piecewise reference
definition on every nonnegative PM2.5 input, and hits the two anchor
values `deriveIndex 0 = 0` and `deriveIndex 12 = 50`. -/
theorem calculateAQI_matches_spec (pm25 : ℚ) (h : 0 ≤ pm25) :
    calculateAQI pm25 = deriveIndexSpec pm25 ∧
    calculateAQI 0 = 0 ∧ calculateAQI 12 = 50 := by
  refine ⟨?_, ?_, ?_⟩
  · unfold calculateAQI deriveIndexSpec
    rcases le_or_lt pm25 12 with h1 | h1
    · rw [if_pos h1, if_pos h1]
    · rw [if_neg (not_le.mpr h1), if_neg (not_le.mpr h1)]
      rcases le_or_lt pm25 35.4 with h2 | h2
      · rw [if_pos h2, if_pos (show 12 < pm25 ∧ pm25 ≤ 35.4 from ⟨h1, h2⟩)]
      · rw [if_neg (not_le.mpr h2),
          if_neg (show ¬(12 < pm25 ∧ pm25 ≤ 35.4) from
            fun hc => absurd hc.2 (not_le.mpr h2))]
        rcases le_or_lt pm25 55.4 with h3 | h3
        · rw [if_pos h3, if_pos (show 35.4 < pm25 ∧ pm25 ≤ 55.4 from ⟨h2, h3⟩)]
        · rw [if_neg (not_le.mpr h3),
            if_neg (show ¬(35.4 < pm25 ∧ pm25 ≤ 55.4) from
              fun hc => absurd hc.2 (not_le.mpr h3))]
          rcases le_or_lt pm25 150.4 with h4 | h4
          · rw [if_pos h4,
              if_pos (show 55.4 < pm25 ∧ pm25 ≤ 150.4 from ⟨h3, h4⟩)]
          · rw [if_neg (not_le.mpr h4),
              if_neg (show ¬(55.4 < pm25 ∧ pm25 ≤ 150.4) from
                fun hc => absurd hc.2 (not_le.mpr h4))]
  · norm_num [calculateAQI, jsRound]
  · norm_num [calculateAQI, jsRound]

theorem calculateAQI_matches_spec_witness :
    calculateAQI 20 = deriveIndexSpec 20 ∧
    calculateAQI 0 = 0 ∧ calculateAQI 12 = 50 :=
  calculateAQI_matches_spec 20 (by norm_num)

/-- C4: `getAQIStatus` realizes the spec's ordered band table with
inclusive lower boundaries, first match wins, including the four
boundary examples. -/
theorem getAQIStatus_matches_table :
    (∀ index : ℤ, getAQIStatus index = classifySpec index) ∧
    getAQIStatus 50 = "Good" ∧ getAQIStatus 51 = "Moderate" ∧
    getAQIStatus 200 = "Unhealthy" ∧ getAQIStatus 201 = "Very Unhealthy" :=
  ⟨fun _ => rfl, rfl, rfl, rfl, rfl⟩

/-- C5: at each of the five breakpoint values the value `calculateAQI`
returns and the value of the neighboring segment's formula differ by at
most 1 (here: they agree exactly, over exact rational arithmetic). -/
theorem calculateAQI_breakpoint_continuity :
    (calculateAQI 0 - aqiSegment1 0).natAbs ≤ 1 ∧
    (calculateAQI 12 - aqiSegment2 12).natAbs ≤ 1 ∧
    (calculateAQI 35.4 - aqiSegment3 35.4).natAbs ≤ 1 ∧
    (calculateAQI 55.4 - aqiSegment4 55.4).natAbs ≤ 1 ∧
    (calculateAQI 150.4 - aqiSegment5 150.4).natAbs ≤ 1 := by
  refine ⟨?_, ?_, ?_, ?_, ?_⟩ <;>
    norm_num [calculateAQI, aqiSegment1, aqiSegment2, aqiSegment3,
      aqiSegment4, aqiSegment5, jsRound]

/-- One geocoding match from the geocoding endpoint's `results` array. -/
structure GeoResult where
  latitude : ℚ
  longitude : ℚ
  name : String
  country_code : String

/-- The `current` block of a current-weather response. -/
structure WeatherCurrent where
  temperature_2m : ℚ
  relative_humidity_2m : ℚ
  weather_code : ℤ
  wind_speed_10m : ℚ

/-- The weather snapshot object `fetchWeatherDataWithCoords` returns. -/
structure WeatherSnapshot where
  temperature : ℤ
  description : String
  humidity : ℚ
  windSpeed : ℚ
  cityName : String
  country : String

/-- Predicate `response.ok` of the Fetch API: HTTP status in the 200–299 range. -/
def httpOk (status : ℕ) : Bool := 200 ≤ status && status ≤ 299

/-- The `codes` lookup object inside `getWeatherDescription`. -/
def weatherCodes : List (ℤ × String) :=
  [(0, "clear sky"), (1, "mainly clear"), (2, "partly cloudy"), (3, "overcast"),
   (45, "foggy"), (48, "depositing rime fog"),
   (51, "light drizzle"), (53, "moderate drizzle"), (55, "dense drizzle"),
   (61, "slight rain"), (63, "moderate rain"), (65, "heavy rain"),
   (71, "slight snow"), (73, "moderate snow"), (75, "heavy snow"),
   (80, "slight rain showers"), (81, "moderate rain showers"),
   (82, "violent rain showers"),
   (85, "slight snow showers"), (86, "heavy snow showers"),
   (95, "thunderstorm")]

/-- Function `getWeatherDescription` from `script.js`: `codes[code] || "unknown"` —
object lookup with `"unknown"` as the default for absent keys. -/
def getWeatherDescription (code : ℤ) : String :=
  ((weatherCodes.find? (fun p => p.1 == code)).map Prod.snd).getD "unknown"

/-- Outcome of the `fetch` of the current-weather request: either the
promise rejects (network error, with the browser's message) or a
response with an HTTP status and a parsed `current` block arrives. -/
inductive WeatherFetchInput where
  | fetchError (msg : String)
  | response (status : ℕ) (current : WeatherCurrent)

/-- Function `fetchWeatherDataWithCoords` from `script.js`: on a non-ok status it
throws `Weather API error: <status>`, and its own catch re-throws every
failure wrapped as `Failed to fetch weather data: <inner message>`; on
success it builds the snapshot (temperature rounded, humidity and wind
passed through, description from the code table). -/
def fetchWeatherDataWithCoords (input : WeatherFetchInput)
    (geoResult : GeoResult) : Except String WeatherSnapshot :=
  match input with
  | .fetchError msg => .error ("Failed to fetch weather data: " ++ msg)
  | .response status current =>
    if httpOk status then
      .ok { temperature := jsRound current.temperature_2m
            description := getWeatherDescription current.weather_code
            humidity := current.relative_humidity_2m
            windSpeed := current.wind_speed_10m
            cityName := geoResult.name
            country := geoResult.country_code }
    else
      .error ("Failed to fetch weather data: " ++
        ("Weather API error: " ++ toString status))

/-- The `current` block of an air-quality response; `pm2_5` and `us_aqi`
are `none` when the field is `null` or absent. -/
structure AirCurrent where
  pm2_5 : Option ℚ
  us_aqi : Option ℚ

/-- A parsed air-quality response body; `current` is `none` when the
`current` block is absent. -/
structure AirQualityResponse where
  current : Option AirCurrent

/-- The air-quality snapshot object `fetchAirQualityData` returns;
`none` models the `null` fields of the degraded snapshots. -/
structure AirQualitySnapshot where
  pm25 : Option ℤ
  aqi : Option ℤ
  status : String

/-- Outcome of the `fetch` of the air-quality request. -/
inductive AirFetchInput where
  | fetchError (msg : String)
  | response (status : ℕ) (body : AirQualityResponse)

/-- Function `fetchAirQualityData` from `script.js`: absorbs every failure into a
degraded snapshot; checks `pm2_5 === null || === undefined` explicitly
(so a 0 concentration is present); `Math.round`s the concentration; uses
the upstream `us_aqi` unless it is falsy (`!aqi || aqi === null`, which
a 0 index also triggers), otherwise derives via `calculateAQI` on the
rounded concentration; classifies via `getAQIStatus`. -/
def fetchAirQualityData (input : AirFetchInput) : AirQualitySnapshot :=
  match input with
  | .fetchError _ => ⟨none, none, "Air quality data not available"⟩
  | .response status body =>
    if httpOk status then
      match body.current with
      | none => ⟨none, none, "No air quality data available for this location"⟩
      | some current =>
        match current.pm2_5 with
        | none =>
          ⟨none, none, "No air quality data available for this location"⟩
        | some raw =>
          let pm25 : ℤ := jsRound raw
          let aqi : ℤ :=
            match current.us_aqi with
            | none => calculateAQI (pm25 : ℚ)
            | some a => if a = 0 then calculateAQI (pm25 : ℚ) else jsRound a
          ⟨some pm25, some aqi, getAQIStatus aqi⟩
    else ⟨none, none, "Air quality data not available"⟩

/-- Function `fetchAirQualityData` as written in `README.md`: same shape, but the
presence test is the truthiness check `!data.current?.pm2_5` (so a 0
concentration counts as absent) and the absent-data label lacks the
"for this location" suffix. -/
def fetchAirQualityDataReadme (input : AirFetchInput) : AirQualitySnapshot :=
  match input with
  | .fetchError _ => ⟨none, none, "Air quality data not available"⟩
  | .response status body =>
    if httpOk status then
      match body.current with
      | none => ⟨none, none, "No air quality data available"⟩
      | some current =>
        match current.pm2_5 with
        | none => ⟨none, none, "No air quality data available"⟩
        | some raw =>
          if raw = 0 then ⟨none, none, "No air quality data available"⟩
          else
            let pm25 : ℤ := jsRound raw
            let aqi : ℤ :=
              match current.us_aqi with
              | none => calculateAQI (pm25 : ℚ)
              | some a => if a = 0 then calculateAQI (pm25 : ℚ) else jsRound a
            ⟨some pm25, some aqi, getAQIStatus aqi⟩
    else ⟨none, none, "Air quality data not available"⟩

/-- Outcome of the `fetch` of the geocoding request; `results` is `none`
when the response body has no `results` field. -/
inductive GeoInput where
  | fetchError (msg : String)
  | response (status : ℕ) (results : Option (List GeoResult))

/-- The geocoding step of `fetchCityData`: throws
`Geocoding API error: <status>` on a non-ok status, throws
`City not found. Please check the city name.` when `results` is absent
or empty, and otherwise destructures `results[0]`. -/
def geocodeStep (input : GeoInput) : Except String GeoResult :=
  match input with
  | .fetchError msg => .error msg
  | .response status results =>
    if httpOk status then
      match results with
      | none => .error "City not found. Please check the city name."
      | some [] => .error "City not found. Please check the city name."
      | some (r :: _) => .ok r
    else .error ("Geocoding API error: " ++ toString status)

/-- Outcome of one hourly `fetch` (weather or air domain); the parsed
body is passed through untouched, so it stays abstract here. -/
inductive HourlyInput (α : Type) where
  | fetchError (msg : String)
  | response (status : ℕ) (body : α)

/-- Functions `fetchHourlyWeatherData` / `fetchHourlyAirQualityData`: both return
the parsed body on success and `null` on any failure (their catch
swallows the non-ok throw and the network error alike). -/
def fetchHourlyData {α : Type} (input : HourlyInput α) : Option α :=
  match input with
  | .fetchError _ => none
  | .response status body => if httpOk status then some body else none

/-- The pipeline stages `fetchCityData` can invoke. -/
inductive Stage where
  | geocoder
  | weather
  | airQuality
  | hourlyWeather
  | hourlyAir
deriving DecidableEq

/-- What one invocation of the orchestrator delivers: either a surfaced
error message (the `showError` call of the catch block, with no bundle)
or the full bundle handed to the display functions. -/
inductive OrchestratorResult (α β : Type) where
  | errorSurfaced (msg : String)
  | bundleDelivered (weather : WeatherSnapshot) (air : AirQualitySnapshot)
      (hourlyWeather : Option α) (hourlyAir : Option β)

/-- The catch block's `error.message || "Failed to fetch data. Please
try refreshing the page."`. -/
def surfaceMsg (msg : String) : String :=
  if msg = "" then "Failed to fetch data. Please try refreshing the page."
  else msg

/-- Function `fetchCityData` from `script.js`, instrumented with the list of
stages it invokes: geocode first; on geocoding failure the catch block
surfaces the message and no fetcher runs; otherwise all four fetchers
are launched in one `Promise.all`, whose only possible rejection is the
weather fetcher's (the other three absorb their failures); a weather
rejection surfaces its message with no bundle, else the bundle is
handed to the display functions. -/
def fetchCityData {α β : Type} (geo : GeoInput) (w : WeatherFetchInput)
    (a : AirFetchInput) (hw : HourlyInput α) (ha : HourlyInput β) :
    OrchestratorResult α β × List Stage :=
  match geocodeStep geo with
  | .error msg => (.errorSurfaced (surfaceMsg msg), [Stage.geocoder])
  | .ok geoResult =>
    match fetchWeatherDataWithCoords w geoResult with
    | .error msg =>
      (.errorSurfaced (surfaceMsg msg),
        [Stage.geocoder, Stage.weather, Stage.airQuality,
         Stage.hourlyWeather, Stage.hourlyAir])
    | .ok weather =>
      (.bundleDelivered weather (fetchAirQualityData a)
          (fetchHourlyData hw) (fetchHourlyData ha),
        [Stage.geocoder, Stage.weather, Stage.airQuality,
         Stage.hourlyWeather, Stage.hourlyAir])

/-- A string starting with a non-empty literal is non-empty. -/
theorem append_ne_empty_of_left (a b : String) (h : a.length ≠ 0) :
    a ++ b ≠ "" := by
  intro hc
  have h2 := congrArg String.length hc
  simp [String.length_append] at h2
  exact h h2.1

/-- Every band label `getAQIStatus` can return is non-empty. -/
theorem getAQIStatus_ne_empty (aqi : ℤ) : getAQIStatus aqi ≠ "" := by
  unfold getAQIStatus
  split_ifs <;> decide

/-- C6: on a successful current-weather response the snapshot rounds the
temperature, passes humidity and wind speed through unchanged, and takes
the description from the fixed code table; `getWeatherDescription` is
total, maps 0 to "clear sky" and 95 to "thunderstorm", maps every code
outside the table to exactly "unknown", and never returns "". -/
theorem weather_snapshot_correct (status : ℕ) (current : WeatherCurrent)
    (geoResult : GeoResult) (h : httpOk status = true) :
    fetchWeatherDataWithCoords (.response status current) geoResult =
      Except.ok ⟨jsRound current.temperature_2m,
        getWeatherDescription current.weather_code,
        current.relative_humidity_2m, current.wind_speed_10m,
        geoResult.name, geoResult.country_code⟩ ∧
    getWeatherDescription 0 = "clear sky" ∧
    getWeatherDescription 95 = "thunderstorm" ∧
    (∀ code : ℤ, (∀ p ∈ weatherCodes, p.1 ≠ code) →
      getWeatherDescription code = "unknown") ∧
    (∀ code : ℤ, getWeatherDescription code ≠ "") := by
  refine ⟨?_, rfl, rfl, ?_, ?_⟩
  · simp [fetchWeatherDataWithCoords, h]
  · intro code hcode
    unfold getWeatherDescription
    rw [List.find?_eq_none.mpr]
    · rfl
    · intro p hp
      simpa using hcode p hp
  · intro code
    unfold getWeatherDescription
    cases hf : weatherCodes.find? (fun p => p.1 == code) with
    | none => simp
    | some p =>
      have hm := List.mem_of_find?_eq_some hf
      have hne : p.2 ≠ "" := (by decide : ∀ q ∈ weatherCodes, q.2 ≠ "") p hm
      simpa using hne

theorem weather_snapshot_correct_witness :
    fetchWeatherDataWithCoords
        (WeatherFetchInput.response 200 ⟨23.7, 60, 2, 3.2⟩)
        ⟨12.97, 77.59, "Bangalore", "IN"⟩ =
      Except.ok ⟨jsRound (23.7 : ℚ), getWeatherDescription 2, 60, 3.2,
        "Bangalore", "IN"⟩ ∧
    getWeatherDescription 0 = "clear sky" ∧
    getWeatherDescription 95 = "thunderstorm" ∧
    (∀ code : ℤ, (∀ p ∈ weatherCodes, p.1 ≠ code) →
      getWeatherDescription code = "unknown") ∧
    (∀ code : ℤ, getWeatherDescription code ≠ "") :=
  weather_snapshot_correct 200 ⟨23.7, 60, 2, 3.2⟩
    ⟨12.97, 77.59, "Bangalore", "IN"⟩ rfl

/-- C7: a non-success HTTP status on the current-weather request makes
the weather fetcher throw a message containing the status code wrapped
in weather-stage context, and when geocoding succeeded the orchestrator
surfaces exactly that message and delivers no bundle. -/
theorem weather_http_failure_pipeline_fatal {α β : Type} (geo : GeoInput)
    (r : GeoResult) (status : ℕ) (current : WeatherCurrent)
    (a : AirFetchInput) (hw : HourlyInput α) (ha : HourlyInput β)
    (hgeo : geocodeStep geo = Except.ok r) (hstatus : httpOk status = false) :
    fetchWeatherDataWithCoords (.response status current) r =
      Except.error ("Failed to fetch weather data: " ++
        ("Weather API error: " ++ toString status)) ∧
    (∃ pre suf,
      "Failed to fetch weather data: " ++
          ("Weather API error: " ++ toString status) =
        pre ++ toString status ++ suf) ∧
    fetchCityData geo (.response status current) a hw ha =
      (OrchestratorResult.errorSurfaced
        ("Failed to fetch weather data: " ++
          ("Weather API error: " ++ toString status)),
       [Stage.geocoder, Stage.weather, Stage.airQuality,
        Stage.hourlyWeather, Stage.hourlyAir]) := by
  have hmsg : fetchWeatherDataWithCoords
      (WeatherFetchInput.response status current) r =
      Except.error ("Failed to fetch weather data: " ++
        ("Weather API error: " ++ toString status)) := by
    simp [fetchWeatherDataWithCoords, hstatus]
  have hne : "Failed to fetch weather data: " ++
      ("Weather API error: " ++ toString status) ≠ "" :=
    append_ne_empty_of_left _ _ (by decide)
  refine ⟨hmsg,
    ⟨"Failed to fetch weather data: Weather API error: ", "", ?_⟩, ?_⟩
  · rw [String.append_empty, ← String.append_assoc]
    congr 1
  · simp [fetchCityData, hgeo, hmsg, surfaceMsg, hne]

theorem weather_http_failure_pipeline_fatal_witness :
    fetchWeatherDataWithCoords
        (WeatherFetchInput.response 500 ⟨23.7, 60, 2, 3.2⟩)
        ⟨12.97, 77.59, "Bangalore", "IN"⟩ =
      Except.error ("Failed to fetch weather data: " ++
        ("Weather API error: " ++ toString 500)) ∧
    (∃ pre suf,
      "Failed to fetch weather data: " ++
          ("Weather API error: " ++ toString 500) =
        pre ++ toString 500 ++ suf) ∧
    fetchCityData
        (GeoInput.response 200 (some [⟨12.97, 77.59, "Bangalore", "IN"⟩]))
        (WeatherFetchInput.response 500 ⟨23.7, 60, 2, 3.2⟩)
        (AirFetchInput.fetchError "net")
        (HourlyInput.fetchError (α := Unit) "net")
        (HourlyInput.fetchError (α := Unit) "net") =
      (OrchestratorResult.errorSurfaced
        ("Failed to fetch weather data: " ++
          ("Weather API error: " ++ toString 500)),
       [Stage.geocoder, Stage.weather, Stage.airQuality,
        Stage.hourlyWeather, Stage.hourlyAir]) :=
  weather_http_failure_pipeline_fatal
    (GeoInput.response 200 (some [⟨12.97, 77.59, "Bangalore", "IN"⟩]))
    ⟨12.97, 77.59, "Bangalore", "IN"⟩ 500 ⟨23.7, 60, 2, 3.2⟩
    (AirFetchInput.fetchError "net")
    (HourlyInput.fetchError (α := Unit) "net")
    (HourlyInput.fetchError (α := Unit) "net") rfl rfl

/-- C8: every failing geocoding outcome (zero matches — absent or empty
`results` — or a non-success HTTP status) makes the orchestrator surface
the corresponding message and invoke no fetcher: the invoked-stage list
is exactly `[geocoder]`; the zero-match message is a fixed string
distinct from every HTTP-status message. -/
theorem geocoding_failure_no_fetchers {α β : Type} (w : WeatherFetchInput)
    (a : AirFetchInput) (hw : HourlyInput α) (ha : HourlyInput β) :
    (∀ (status : ℕ) (results : Option (List GeoResult)),
      httpOk status = true → (results = none ∨ results = some []) →
      fetchCityData (.response status results) w a hw ha =
        (OrchestratorResult.errorSurfaced
          "City not found. Please check the city name.", [Stage.geocoder])) ∧
    (∀ (status : ℕ) (results : Option (List GeoResult)),
      httpOk status = false →
      fetchCityData (.response status results) w a hw ha =
        (OrchestratorResult.errorSurfaced
          ("Geocoding API error: " ++ toString status), [Stage.geocoder])) ∧
    (∀ status : ℕ,
      "City not found. Please check the city name." ≠
        "Geocoding API error: " ++ toString status) ∧
    (Stage.weather ∉ [Stage.geocoder] ∧ Stage.airQuality ∉ [Stage.geocoder] ∧
     Stage.hourlyWeather ∉ [Stage.geocoder] ∧
     Stage.hourlyAir ∉ [Stage.geocoder]) := by
  have hsm : surfaceMsg "City not found. Please check the city name." =
      "City not found. Please check the city name." := rfl
  refine ⟨?_, ?_, ?_, by decide⟩
  · intro status results h1 h2
    rcases h2 with rfl | rfl <;>
      simp [fetchCityData, geocodeStep, h1, hsm]
  · intro status results h1
    have hne : "Geocoding API error: " ++ toString status ≠ "" :=
      append_ne_empty_of_left _ _ (by decide)
    simp [fetchCityData, geocodeStep, h1, surfaceMsg, hne]
  · intro status hc
    have h2 := congrArg String.data hc
    rw [String.data_append] at h2
    simp at h2

theorem geocoding_failure_no_fetchers_witness :
    fetchCityData (GeoInput.response 200 (some ([] : List GeoResult)))
        (WeatherFetchInput.fetchError "net") (AirFetchInput.fetchError "net")
        (HourlyInput.fetchError (α := Unit) "net")
        (HourlyInput.fetchError (α := Unit) "net") =
      (OrchestratorResult.errorSurfaced
        "City not found. Please check the city name.", [Stage.geocoder]) :=
  (geocoding_failure_no_fetchers (WeatherFetchInput.fetchError "net")
    (AirFetchInput.fetchError "net") (HourlyInput.fetchError (α := Unit) "net")
    (HourlyInput.fetchError (α := Unit) "net")).1 200 (some []) rfl (Or.inr rfl)

/-- C3: the air-quality fetcher is a total function of its input (no
failure path escapes it): on every input the snapshot has `pm25` and
`aqi` both present or both absent and a non-empty `statusLabel`, and on
the response `{current: {pm2_5: null}}` it is exactly the absent
snapshot labelled "No air quality data available for this location". -/
theorem airquality_never_raises (input : AirFetchInput) :
    ((fetchAirQualityData input).pm25.isSome =
      (fetchAirQualityData input).aqi.isSome) ∧
    (fetchAirQualityData input).status ≠ "" ∧
    fetchAirQualityData (AirFetchInput.response 200 ⟨some ⟨none, none⟩⟩) =
      ⟨none, none, "No air quality data available for this location"⟩ := by
  refine ⟨?_, ?_, rfl⟩ <;>
  · cases input with
    | fetchError msg => simp [fetchAirQualityData]
    | response status body =>
      obtain ⟨cur⟩ := body
      cases cur with
      | none =>
        by_cases hok : httpOk status = true <;>
          simp [fetchAirQualityData, hok]
      | some c =>
        obtain ⟨pm, us⟩ := c
        cases pm with
        | none =>
          by_cases hok : httpOk status = true <;>
            simp [fetchAirQualityData, hok]
        | some raw =>
          by_cases hok : httpOk status = true <;>
            simp [fetchAirQualityData, hok, getAQIStatus_ne_empty]

/-- C2 counterexample: on the response `{current: {pm2_5: 12, us_aqi: 0}}`
the upstream index is present (value 0), yet the snapshot's index is the
derived 50, not the rounded upstream 0 — the code's `!aqi` truthiness
check treats a 0 index as absent. -/
theorem airquality_upstream_zero_counterexample :
    (fetchAirQualityData
        (AirFetchInput.response 200 ⟨some ⟨some 12, some 0⟩⟩)).aqi =
      some 50 ∧
    jsRound 0 = 0 ∧ (some 50 : Option ℤ) ≠ some 0 := by
  refine ⟨?_, ?_, by decide⟩
  · norm_num [fetchAirQualityData, httpOk, calculateAQI, jsRound]
  · norm_num [jsRound]

/-- C2 amended: when the concentration is present, the fetcher derives
the index whenever the upstream index is null, undefined, or zero (the
falsy values), and uses the upstream index rounded to an integer exactly
when it is present and nonzero. -/
theorem airquality_index_choice (status : ℕ) (body : AirQualityResponse)
    (c : AirCurrent) (raw : ℚ) (hok : httpOk status = true)
    (hcur : body.current = some c) (hpm : c.pm2_5 = some raw) :
    (c.us_aqi = none ∨ c.us_aqi = some 0 →
      (fetchAirQualityData (.response status body)).aqi =
        some (calculateAQI ((jsRound raw : ℤ) : ℚ))) ∧
    (∀ a : ℚ, c.us_aqi = some a → a ≠ 0 →
      (fetchAirQualityData (.response status body)).aqi =
        some (jsRound a)) := by
  constructor
  · rintro (hus | hus) <;> simp [fetchAirQualityData, hok, hcur, hpm, hus]
  · intro a hus ha
    simp [fetchAirQualityData, hok, hcur, hpm, hus, ha]

theorem airquality_index_choice_witness :
    (fetchAirQualityData
        (AirFetchInput.response 200 ⟨some ⟨some 12, some 7⟩⟩)).aqi =
      some (jsRound 7) :=
  (airquality_index_choice 200 ⟨some ⟨some 12, some 7⟩⟩ ⟨some 12, some 7⟩ 12
    rfl rfl rfl).2 7 rfl (by norm_num)

/-- C10: when the concentration is present the snapshot's `pm25` is the
raw value rounded to an integer (also when the raw value is 0, which
stays present), and a derived index is computed from the rounded
concentration — which differs from deriving from the raw value, e.g. at
12.4 where the rounded input yields 50 but the raw input yields 51. -/
theorem pm25_rounded_before_derivation (status : ℕ)
    (body : AirQualityResponse) (c : AirCurrent) (raw : ℚ)
    (hok : httpOk status = true) (hcur : body.current = some c)
    (hpm : c.pm2_5 = some raw) :
    (fetchAirQualityData (.response status body)).pm25 =
      some (jsRound raw) ∧
    (c.us_aqi = none →
      (fetchAirQualityData (.response status body)).aqi =
        some (calculateAQI ((jsRound raw : ℤ) : ℚ))) ∧
    (fetchAirQualityData
        (AirFetchInput.response 200 ⟨some ⟨some 0, none⟩⟩)).pm25 =
      some 0 ∧
    calculateAQI ((jsRound (12.4 : ℚ) : ℤ) : ℚ) = 50 ∧
    calculateAQI (12.4 : ℚ) = 51 := by
  refine ⟨?_, ?_, ?_, ?_, ?_⟩
  · simp [fetchAirQualityData, hok, hcur, hpm]
  · intro hus
    simp [fetchAirQualityData, hok, hcur, hpm, hus]
  · norm_num [fetchAirQualityData, httpOk, jsRound]
  · norm_num [calculateAQI, jsRound]
  · norm_num [calculateAQI, jsRound]

theorem pm25_rounded_before_derivation_witness :
    (fetchAirQualityData
        (AirFetchInput.response 200 ⟨some ⟨some 12.4, none⟩⟩)).pm25 =
      some (jsRound 12.4) ∧
    (fetchAirQualityData
        (AirFetchInput.response 200 ⟨some ⟨some 12.4, none⟩⟩)).aqi =
      some (calculateAQI ((jsRound (12.4 : ℚ) : ℤ) : ℚ)) := by
  have h := pm25_rounded_before_derivation 200 ⟨some ⟨some 12.4, none⟩⟩
    ⟨some 12.4, none⟩ 12.4 rfl rfl rfl
  exact ⟨h.1, h.2.1 rfl⟩

/-- C9 counterexample: on the response `{current: {pm2_5: 0}}` the
`script.js` variant returns the present snapshot (0, 0, "Good") while
the `README.md` variant returns the absent snapshot — and its absent
label also differs from the `script.js` one — so the two variants are
not extensionally equal. -/
theorem variants_differ_at_zero :
    fetchAirQualityData (AirFetchInput.response 200 ⟨some ⟨some 0, none⟩⟩) =
      ⟨some 0, some 0, "Good"⟩ ∧
    fetchAirQualityDataReadme
        (AirFetchInput.response 200 ⟨some ⟨some 0, none⟩⟩) =
      ⟨none, none, "No air quality data available"⟩ ∧
    (⟨some 0, some 0, "Good"⟩ : AirQualitySnapshot) ≠
      ⟨none, none, "No air quality data available"⟩ := by
  refine ⟨?_, ?_, by simp⟩
  · have h0 : calculateAQI (0 : ℚ) = 0 := by
      norm_num [calculateAQI, jsRound]
    have hr : jsRound 0 = 0 := by norm_num [jsRound]
    norm_num [fetchAirQualityData, httpOk, hr, h0, getAQIStatus]
  · norm_num [fetchAirQualityDataReadme, httpOk]

/-- C9 amended: the two variants agree on every failed fetch (network
error or non-success status) and on every successful response whose
PM2.5 concentration is present and nonzero; they disagree when the
concentration is absent (different labels) or exactly 0 (present
snapshot vs absent snapshot). -/
theorem variants_agree_off_absent_and_zero (input : AirFetchInput)
    (h : ∀ status body, input = AirFetchInput.response status body →
      httpOk status = true →
      ∃ c raw, body.current = some c ∧ c.pm2_5 = some raw ∧ raw ≠ 0) :
    fetchAirQualityData input = fetchAirQualityDataReadme input := by
  cases input with
  | fetchError msg => rfl
  | response status body =>
    by_cases hok : httpOk status = true
    · obtain ⟨c, raw, hcur, hpm, hraw⟩ := h status body rfl hok
      simp [fetchAirQualityData, fetchAirQualityDataReadme, hok, hcur,
        hpm, hraw]
    · simp [fetchAirQualityData, fetchAirQualityDataReadme, hok]

theorem variants_agree_off_absent_and_zero_witness :
    fetchAirQualityData (AirFetchInput.response 200 ⟨some ⟨some 35, none⟩⟩) =
      fetchAirQualityDataReadme
        (AirFetchInput.response 200 ⟨some ⟨some 35, none⟩⟩) :=
  variants_agree_off_absent_and_zero
    (AirFetchInput.response 200 ⟨some ⟨some 35, none⟩⟩)
    (by
      intro status body h1 h2
      cases h1
      exact ⟨⟨some 35, none⟩, 35, rfl, rfl, by norm_num⟩)
